import Mathlib

/-!
# Verification of the retail chatbot core

Shallow embedding of the conversation controller (`chat_core/chat_manager.py`),
the field validators (`chat_core/validators.py`), the user store
(`chat_core/registry.py`, `usuarios` table operations) and the heuristic parts
of the retrieval engine (`chat_core/qa_engine.py`: quality scoring, source
attribution, context-aware suggestions).

Modelling conventions:
- Python strings are Lean `String`s; character-level operations go through
  `String.data`.  `str.lower` is modelled for the ASCII and Latin-1 ranges
  (all characters occurring in the code's keyword lists and messages).
- Python dicts holding the session are modelled as a structure with `Option`
  fields (`none` = key absent).  Reading an absent key raises `KeyError`,
  modelled by `Except PyError`.
- The SQLite `usuarios` table is a list of rows in rowid order; `SELECT ...
  WHERE identificacion = ? AND activo = 1` takes the first matching row, and
  the `UNIQUE` constraint on `identificacion` makes `INSERT` fail (the code
  catches `sqlite3.IntegrityError` and returns `False`).
- The hosted-LLM retrieval pipeline inside `QAEngine.ask_question` is an
  external collaborator; its observable interface (answer, sources, metadata
  with optional quality score) is a parameter `QAEnv`.  The pure heuristics of
  the engine (relevance scoring, source selection, quality score, suggestions)
  are embedded directly from the source.
- Monetary of floats: the quality/relevance scores (`0.4`, `0.05`, ...) are
  modelled as rationals.
-/

namespace Chatbot

/-! ## String primitives (Python semantics) -/

/-- Python `str.lower` restricted to ASCII and Latin-1: `A`-`Z` and
`À`-`Þ` (except `×`) map to their lowercase forms; everything else unchanged.
All keyword lists and state names in the code are covered by this range. -/
def charLower (c : Char) : Char :=
  if 'A' ≤ c && c ≤ 'Z' then Char.ofNat (c.toNat + 32)
  else if 0xC0 ≤ c.toNat && c.toNat ≤ 0xDE && c.toNat ≠ 0xD7 then Char.ofNat (c.toNat + 32)
  else c

/-- Python `\s` / `str.strip` whitespace for the Latin-1 range. -/
def isPySpace (c : Char) : Bool :=
  c = ' ' || c = '\t' || c = '\n' || c = '\x0d' ||
  c = '\x0b' || c = '\x0c' || c = '\x1c' || c = '\x1d' ||
  c = '\x1e' || c = '\x1f' || c = '\x85' || c = '\xa0'

/-- Python `str.lower`. -/
def pyLower (s : String) : String := ⟨s.data.map charLower⟩

/-- Python `str.strip()`: drop leading and trailing whitespace. -/
def pyStrip (s : String) : String :=
  ⟨((s.data.dropWhile isPySpace).reverse.dropWhile isPySpace).reverse⟩

/-- Whether `needle` occurs as a contiguous sublist of `hay`. -/
def isSubstringList (needle hay : List Char) : Bool :=
  match hay with
  | [] => needle.isEmpty
  | _ :: t => needle.isPrefixOf hay || isSubstringList needle t

/-- Python `needle in hay` (substring containment). -/
def containsSub (hay needle : String) : Bool :=
  isSubstringList needle.data hay.data

/-- Python `any(w in msg for w in words)`. -/
def containsAny (msg : String) (words : List String) : Bool :=
  words.any (fun w => containsSub msg w)

/-- Python `str.split()` (split on whitespace runs, no empty fields). -/
def pySplit (s : String) : List String :=
  ((s.data.splitOnP isPySpace).filter (fun l => l ≠ [])).map (fun l => (⟨l⟩ : String))

/-! ## Field validators (`chat_core/validators.py`)

Each `re.match(r'^...$', s)` is embedded by the predicate the regex denotes on
the whole string, together with Python's `$` quirk: `$` also matches just
before a single trailing newline. -/

/-- Python `re.match(^core$)`: the whole string matches `core`, or the string
minus one trailing newline does. -/
def reMatchDollar (core : List Char → Bool) (l : List Char) : Bool :=
  core l || (if l.getLast? = some '\n' then core l.dropLast else false)

def isDigitB (c : Char) : Bool := '0' ≤ c && c ≤ '9'

def isAsciiLetter (c : Char) : Bool :=
  ('a' ≤ c && c ≤ 'z') || ('A' ≤ c && c ≤ 'Z')

/-- Body of `^\d{4,11}$`. -/
def identCore (l : List Char) : Bool :=
  l.all isDigitB && decide (4 ≤ l.length) && decide (l.length ≤ 11)

/-- Embeds `UserValidator.validate_identificacion`. -/
def validate_identificacion (identificacion : String) : Bool × Option String :=
  if identificacion.data = [] then
    (false, some "La identificación no puede estar vacía")
  else if reMatchDollar identCore identificacion.data then (true, none)
  else (false, some "La identificación debe tener entre 4 y 11 dígitos numéricos")

/-- The character class `[a-zA-ZáéíóúÁÉÍÓÚñÑ\s]` of the name regex. -/
def nameChar (c : Char) : Bool :=
  isAsciiLetter c ||
  c = 'á' || c = 'é' || c = 'í' || c = 'ó' || c = 'ú' ||
  c = 'Á' || c = 'É' || c = 'Í' || c = 'Ó' || c = 'Ú' ||
  c = 'ñ' || c = 'Ñ' || isPySpace c

/-- Body of `^[a-zA-ZáéíóúÁÉÍÓÚñÑ\s]+$`. -/
def nameCore (l : List Char) : Bool := !l.isEmpty && l.all nameChar

/-- Embeds `UserValidator.validate_nombre_completo`. -/
def validate_nombre_completo (nombre : String) : Bool × Option String :=
  if nombre.data = [] then
    (false, some "El nombre no puede estar vacío")
  else if 100 < nombre.data.length then
    (false, some "El nombre no puede tener más de 100 caracteres")
  else if reMatchDollar nameCore nombre.data then (true, none)
  else (false, some "El nombre solo puede contener letras, espacios y tildes")

/-- Body of `^[36]\d{9}$`. -/
def telCore (l : List Char) : Bool :=
  match l with
  | [] => false
  | c :: rest => (c = '3' || c = '6') && decide (rest.length = 9) && rest.all isDigitB

/-- Embeds `UserValidator.validate_telefono`. -/
def validate_telefono (telefono : String) : Bool × Option String :=
  if telefono.data = [] then
    (false, some "El teléfono no puede estar vacío")
  else if reMatchDollar telCore telefono.data then (true, none)
  else (false, some "El teléfono debe tener exactamente 10 dígitos y empezar por 3 o 6")

def emailLocalChar (c : Char) : Bool :=
  isAsciiLetter c || isDigitB c || c = '.' || c = '_' || c = '%' || c = '+' || c = '-'

def emailDomainChar (c : Char) : Bool :=
  isAsciiLetter c || isDigitB c || c = '.' || c = '-'

/-- The part after `@` must match `[a-zA-Z0-9.-]+\.[a-zA-Z]{2,}`: some `.`
splits it into a non-empty domain-class prefix and an all-letter suffix of
length at least 2. -/
def emailTail (rest : List Char) : Bool :=
  (List.range rest.length).any (fun i =>
    rest.get? i = some '.' && decide (0 < i) &&
    (rest.take i).all emailDomainChar &&
    decide (2 ≤ rest.length - (i + 1)) &&
    (rest.drop (i + 1)).all isAsciiLetter)

/-- Body of `^[a-zA-Z0-9._%+-]+@[a-zA-Z0-9.-]+\.[a-zA-Z]{2,}$` (neither
character class contains `@`, so the string must have exactly one `@`). -/
def emailCore (l : List Char) : Bool :=
  match l.splitOn '@' with
  | [loc, rest] => loc ≠ [] && loc.all emailLocalChar && emailTail rest
  | _ => false

/-- Embeds `UserValidator.validate_email`. -/
def validate_email (email : String) : Bool × Option String :=
  if email.data = [] then
    (false, some "El email no puede estar vacío")
  else if !email.data.contains '@' then
    (false, some "El email debe contener el símbolo @")
  else if reMatchDollar emailCore email.data then (true, none)
  else (false, some "El formato del email no es válido")

/-! ## User store (`chat_core/registry.py`, `usuarios` table)

A store is the list of rows of the `usuarios` table in rowid (insertion)
order.  `fecha_registro` (`DEFAULT CURRENT_TIMESTAMP`) is supplied by the
caller as `now`. -/

structure UserRow where
  identificacion : String
  nombre_completo : String
  telefono : String
  email : String
  fecha_registro : String
  activo : Bool
deriving Repr, DecidableEq

abbrev Store := List UserRow

/-- The dict returned by `get_user` (the five selected columns). -/
structure User where
  identificacion : String
  nombre_completo : String
  telefono : String
  email : String
  fecha_registro : String
deriving Repr, DecidableEq

def rowToUser (r : UserRow) : User :=
  ⟨r.identificacion, r.nombre_completo, r.telefono, r.email, r.fecha_registro⟩

/-- Embeds `UserRegistry.user_exists`: `SELECT 1 ... WHERE identificacion = ? AND activo = 1`. -/
def user_exists (st : Store) (identificacion : String) : Bool :=
  st.any (fun r => r.identificacion == identificacion && r.activo)

/-- Embeds `UserRegistry.get_user`: first row (lowest rowid) with matching
`identificacion` and `activo = 1`. -/
def get_user (st : Store) (identificacion : String) : Option User :=
  (st.find? (fun r => r.identificacion == identificacion && r.activo)).map rowToUser

/-- Embeds `UserRegistry.register_user`: rejected when an *active* row exists
(`user_exists` pre-check) or when any row — active or not — holds the
identifier (the `UNIQUE` constraint raises `IntegrityError`, caught and turned
into `False`); otherwise the row is inserted with `activo = 1`. -/
def register_user (st : Store) (identificacion nombre_completo telefono email now : String) :
    Bool × Store :=
  if user_exists st identificacion then (false, st)
  else if st.any (fun r => r.identificacion == identificacion) then (false, st)
  else (true, st ++ [⟨identificacion, nombre_completo, telefono, email, now, true⟩])

/-! ## Session model and conversation controller (`chat_core/chat_manager.py`) -/

/-- The `user_data` dict accumulated during registration.  Only these four
keys are ever written or read; `none` = key absent. -/
structure RegData where
  identificacion : Option String
  nombre_completo : Option String
  telefono : Option String
  email : Option String
deriving Repr, DecidableEq

def RegData.empty : RegData := ⟨none, none, none, none⟩

/-- The caller-owned session dict.  For each field, `none` = key absent.  For
`current_user`, `some none` = key present with value `None`. -/
structure Session where
  conversation_state : Option String
  user_data : Option RegData
  current_user : Option (Option User)
deriving Repr, DecidableEq

/-- Reading a missing dict key raises `KeyError`. -/
inductive PyError where
  | keyError (key : String)
deriving Repr, DecidableEq

/-- Python `session_state.get("current_user")`: `None` when the key is absent. -/
def Session.currentUser (s : Session) : Option User := s.current_user.getD none

/-- The eight `ConversationState` enum values. -/
def definedStates : List String :=
  ["welcome", "identify_user_type", "existing_user_id", "new_user_id",
   "new_user_name", "new_user_phone", "new_user_email", "chat_active"]

/-- Embeds `config.WELCOME_MESSAGE`. -/
def welcomeMessage : String :=
  "¡Hola! Soy tu asistente virtual del supermercado. \n¿Eres un cliente nuevo o ya tienes cuenta con nosotros?\n\nResponde:\n- \"Soy nuevo\" o \"Cliente nuevo\" para registrarte\n- \"Ya tengo cuenta\" o \"Cliente frecuente\" para identificarte"

/-- The observable interface of `QAEngine.ask_question` (`user_context` is
accepted but unused by the engine).  `quality_score` is `none` when the
returned metadata dict lacks the key (the early-failure path returns `{}`);
the controller reads it with `metadata.get("quality_score", 0)`. -/
structure AskResult where
  answer : String
  sources : List String
  quality_score : Option ℚ
deriving Repr

/-- The retrieval-engine collaborator of the controller. -/
structure QAEnv where
  ask : String → AskResult

/-- Embeds `QAEngine.get_context_aware_suggestions`. -/
def get_context_aware_suggestions (question : String) : List String :=
  let question_lower := pyLower question
  let suggestions :=
    if containsAny question_lower ["horario", "hora", "abierto"] then
      ["¿Necesitas información sobre horarios de días específicos?",
       "¿Te interesa conocer horarios de sucursales particulares?"]
    else if containsAny question_lower ["promoción", "descuento", "oferta"] then
      ["¿Quieres conocer más detalles del programa Suma y Gana?",
       "¿Te interesa información sobre cómo redimir puntos?"]
    else if containsAny question_lower ["ayuda", "ayudar", "servicio"] then
      ["Puedo informarte sobre horarios de atención",
       "Puedo darte información sobre el programa Suma y Gana"]
    else
      ["¿Necesitas información sobre horarios de atención?",
       "¿Te interesa conocer sobre nuestras promociones?"]
  suggestions.take 2

/-- The fixed phrasings of `ChatManager._is_bot_capability_question`. -/
def capabilityKeywords : List String :=
  ["en qué me puedes ayudar", "qué puedes hacer", "cómo me ayudas",
   "cuáles son tus funciones", "qué servicios ofreces", "para qué sirves",
   "qué información tienes", "en qué me sirves", "cómo funciona este chat",
   "qué consultas puedo hacer", "dime qué haces", "cuál es tu propósito",
   "qué tipo de ayuda das", "qué preguntas puedo hacerte"]

def is_bot_capability_question (message : String) : Bool :=
  capabilityKeywords.any (fun k => containsSub message k)

/-- The canned capabilities reply of `ChatManager._respond_bot_capabilities`,
as a function of the (possibly empty) personalisation insert. -/
def capabilitiesText (user_name : String) : String :=
  "¡Hola" ++ user_name ++ "! 🤖 Soy tu asistente virtual del supermercado y puedo ayudarte proporcionando información sobre:\n\n🕒 **Horarios de Atención**\n• Horarios de todas nuestras sucursales\n• Días y horas específicas de operación\n• Información sobre horarios especiales\n\n🎁 **Promociones y Ofertas**\n• Programa \"Suma y Gana\" \n• Descuentos y promociones vigentes\n• Cómo acumular y redimir puntos\n\n❓ **Preguntas Frecuentes**\n• Métodos de pago\n• Políticas de la tienda\n• Procedimientos y servicios\n• Información general del supermercado\n\n**¿Cómo funciono?**\nBusco en nuestra base de información oficial para darte respuestas precisas y actualizadas. Simplemente pregúntame lo que necesites saber sobre cualquiera de estos temas.\n\n**Ejemplos de preguntas que puedes hacerme:**\n• \"¿Cuáles son los horarios de la sucursal Centro?\"\n• \"¿Cómo funciona el programa Suma y Gana?\"\n• \"¿Qué promociones tienen disponibles?\"\n• \"¿Qué métodos de pago aceptan?\"\n\n¿En qué te gustaría que te ayude hoy? 😊"

def respond_bot_capabilities (s : Session) : String × Session :=
  let user_name :=
    match s.currentUser with
    | some u => " " ++ u.nombre_completo
    | none => ""
  (capabilitiesText user_name, s)

def suggestionHeader : String := "\n\n💡 **También podrías preguntar:**\n"

def bulletLines (l : List String) : String :=
  l.foldl (fun a sug => a ++ "• " ++ sug ++ "\n") ""

/-- Embeds `ChatManager._handle_active_chat`.  The `try`/`except` never fires in the
pure model; `config.DEBUG` defaults to false (read from deployment secrets
with default `"false"`), so the debug suffix is never appended. -/
def handle_active_chat (qa : QAEnv) (message : String) (s : Session) : String × Session :=
  let message_lower := pyStrip (pyLower message)
  if is_bot_capability_question message_lower then respond_bot_capabilities s
  else
    let r := qa.ask message
    let answer :=
      if r.sources ≠ [] then
        r.answer ++ "\n\n📚 *Información obtenida de: " ++ String.intercalate ", " r.sources ++ "*"
      else r.answer
    let answer :=
      if r.quality_score.getD 0 < 3/5 then
        let suggestions := get_context_aware_suggestions message
        if suggestions ≠ [] then
          answer ++ suggestionHeader ++ bulletLines (suggestions.take 2)
        else answer
      else answer
    (answer, s)

def handle_welcome_reply : String := welcomeMessage

/-- Embeds `ChatManager._handle_user_type_identification`. -/
def handle_user_type_identification (message : String) (s : Session) : String × Session :=
  if containsAny message ["nuevo", "nueva", "registrar", "registro"] then
    ("Perfecto! Vamos a registrarte. Primero necesito tu número de identificación (entre 4 y 11 dígitos):",
     { s with conversation_state := some "new_user_id" })
  else if containsAny message ["frecuente", "cuenta", "tengo", "ya", "registrado"] then
    ("¡Excelente! Por favor ingresa tu número de identificación para verificar tu cuenta:",
     { s with conversation_state := some "existing_user_id" })
  else
    ("No entendí tu respuesta. Por favor indica si eres un cliente nuevo o ya tienes cuenta con nosotros.", s)

/-- Embeds `ChatManager._handle_welcome` (the argument is already lowercased and
stripped by `handle_message`). -/
def handle_welcome (message : String) (s : Session) : String × Session :=
  if (pyStrip message).data = [] then
    (welcomeMessage, { s with conversation_state := some "identify_user_type" })
  else handle_user_type_identification message s

/-- Embeds `ChatManager._handle_existing_user_id`. -/
def handle_existing_user_id (message : String) (st : Store) (s : Session) : String × Session :=
  let identificacion := pyStrip message
  let v := validate_identificacion identificacion
  if !v.1 then
    ("❌ " ++ v.2.getD "" ++ " Por favor ingresa tu identificación correctamente:", s)
  else
    match get_user st identificacion with
    | some user =>
        ("¡Hola " ++ user.nombre_completo ++ "! 😊 ¿En qué puedo ayudarte hoy?",
         { s with current_user := some (some user), conversation_state := some "chat_active" })
    | none =>
        ("No encontré tu identificación en nuestro sistema. ¿Te gustaría registrarte como cliente nuevo?",
         { s with conversation_state := some "identify_user_type" })

/-- Embeds `ChatManager._handle_new_user_id`; `session_state["user_data"]` raises
`KeyError` when the key is absent. -/
def handle_new_user_id (message : String) (st : Store) (s : Session) :
    Except PyError (String × Session) :=
  let identificacion := pyStrip message
  let v := validate_identificacion identificacion
  if !v.1 then
    .ok ("❌ " ++ v.2.getD "" ++ " Por favor intenta de nuevo:", s)
  else if user_exists st identificacion then
    .ok ("❌ Esta identificación ya está registrada. ¿Eres un cliente frecuente? Si es así, puedes identificarte directamente.", s)
  else
    match s.user_data with
    | none => .error (.keyError "user_data")
    | some ud =>
        .ok ("✅ Perfecto! Ahora necesito tu nombre completo:",
             { s with user_data := some { ud with identificacion := some identificacion },
                      conversation_state := some "new_user_name" })

/-- Embeds `ChatManager._handle_new_user_name`. -/
def handle_new_user_name (message : String) (s : Session) :
    Except PyError (String × Session) :=
  let nombre := pyStrip message
  let v := validate_nombre_completo nombre
  if !v.1 then
    .ok ("❌ " ++ v.2.getD "" ++ " Por favor intenta de nuevo:", s)
  else
    match s.user_data with
    | none => .error (.keyError "user_data")
    | some ud =>
        .ok ("✅ Excelente! Ahora necesito tu número de teléfono (10 dígitos, iniciando por 3 o 6):",
             { s with user_data := some { ud with nombre_completo := some nombre },
                      conversation_state := some "new_user_phone" })

/-- Embeds `ChatManager._handle_new_user_phone`. -/
def handle_new_user_phone (message : String) (s : Session) :
    Except PyError (String × Session) :=
  let telefono := pyStrip message
  let v := validate_telefono telefono
  if !v.1 then
    .ok ("❌ " ++ v.2.getD "" ++ " Por favor intenta de nuevo:", s)
  else
    match s.user_data with
    | none => .error (.keyError "user_data")
    | some ud =>
        .ok ("✅ Perfecto! Por último, necesito tu correo electrónico:",
             { s with user_data := some { ud with telefono := some telefono },
                      conversation_state := some "new_user_email" })

/-- Embeds `ChatManager._handle_new_user_email`: stash the email, then read the four
fields back out of `user_data` (each read can raise `KeyError`) and attempt
the store write. -/
def handle_new_user_email (message : String) (st : Store) (now : String) (s : Session) :
    Except PyError (String × Session × Store) :=
  let email := pyStrip message
  let v := validate_email email
  if !v.1 then
    .ok ("❌ " ++ v.2.getD "" ++ " Por favor intenta de nuevo:", s, st)
  else
    match s.user_data with
    | none => .error (.keyError "user_data")
    | some ud =>
        let ud := { ud with email := some email }
        match ud.identificacion with
        | none => .error (.keyError "identificacion")
        | some identificacion =>
        match ud.nombre_completo with
        | none => .error (.keyError "nombre_completo")
        | some nombre =>
        match ud.telefono with
        | none => .error (.keyError "telefono")
        | some telefono =>
          let res := register_user st identificacion nombre telefono email now
          if res.1 then
            .ok ("🎉 ¡Registro completado exitosamente! Bienvenido/a " ++ nombre ++ ". ¿En qué puedo ayudarte hoy?",
                 { s with user_data := some ud,
                          current_user := some (get_user res.2 identificacion),
                          conversation_state := some "chat_active" }, res.2)
          else
            .ok ("❌ Hubo un error en el registro. Por favor contacta al servicio al cliente.",
                 { s with user_data := some ud }, st)

/-- Embeds `ChatManager._reset_conversation`. -/
def reset_conversation (s : Session) : String × Session :=
  ("Hubo un problema. Vamos a empezar de nuevo. " ++ welcomeMessage,
   { s with conversation_state := some "welcome",
            user_data := some RegData.empty,
            current_user := some none })

/-- The initialisation block of `handle_message`: when the session lacks the
`conversation_state` key, all three keys are (re)set. -/
def initSession (s : Session) : Session :=
  if s.conversation_state = none then
    { conversation_state := some "welcome", user_data := some RegData.empty,
      current_user := some none }
  else s

/-- Embeds `ChatManager.handle_message`: initialise, lower/strip, dispatch on the
state string (the `elif` chain), falling through to a full reset on any
unrecognised state. -/
def handle_message (qa : QAEnv) (now message : String) (st : Store) (s0 : Session) :
    Except PyError (String × Session × Store) :=
  let s := initSession s0
  let message_lower := pyStrip (pyLower message)
  match s.conversation_state with
  | some "welcome" =>
      let r := handle_welcome message_lower s; .ok (r.1, r.2, st)
  | some "identify_user_type" =>
      let r := handle_user_type_identification message_lower s; .ok (r.1, r.2, st)
  | some "existing_user_id" =>
      let r := handle_existing_user_id message st s; .ok (r.1, r.2, st)
  | some "new_user_id" =>
      (handle_new_user_id message st s).map (fun r => (r.1, r.2, st))
  | some "new_user_name" =>
      (handle_new_user_name message s).map (fun r => (r.1, r.2, st))
  | some "new_user_phone" =>
      (handle_new_user_phone message s).map (fun r => (r.1, r.2, st))
  | some "new_user_email" =>
      handle_new_user_email message st now s
  | some "chat_active" =>
      let r := handle_active_chat qa message s; .ok (r.1, r.2, st)
  | some _ =>
      let r := reset_conversation s; .ok (r.1, r.2, st)
  | none =>
      -- unreachable: `initSession` always leaves `conversation_state` set
      let r := reset_conversation s; .ok (r.1, r.2, st)

/-! ## Retrieval-engine heuristics (`chat_core/qa_engine.py`) -/

/-- A retrieved chunk as seen by the attribution/quality heuristics:
`metadata["source"]`, `page_content`, `metadata["content_type"]`. -/
structure Chunk where
  source : String
  content : String
  content_type : String
deriving Repr, DecidableEq

/-- The dict returned by the QA chain: the generated text and (when
`return_source_documents` produced it) the retrieved chunks. -/
structure QAResult where
  result : String
  source_documents : Option (List Chunk)
deriving Repr

/-- The fixed relevant-word list of `_calculate_quality_score`. -/
def relevantWords : List String :=
  ["horario", "promoción", "descuento", "oferta", "supermercado", "cliente"]

/-- Embeds `QAEngine._calculate_quality_score`. -/
def calculate_quality_score (res : QAResult) (original_question : String) : ℚ :=
  let score : ℚ :=
    match res.source_documents with
    | some docs => if docs ≠ [] then 2/5 + (if 1 < docs.length then 1/5 else 0) else 0
    | none => 0
  let answer_length := res.result.data.length
  let score := if 50 < answer_length ∧ answer_length < 800 then score + 3/10 else score
  let answer_lower := pyLower res.result
  let question_lower := pyLower original_question
  let score := relevantWords.foldl
    (fun acc word =>
      if containsSub question_lower word && containsSub answer_lower word then acc + 1/20
      else acc) score
  min score 1

/-- Python `len(set(question_lower.split()))`. -/
def questionWordCount (question_lower : String) : ℕ :=
  ((pySplit question_lower).dedup).length

/-- Python `len(set(question_lower.split()) & set(content.split()))` for a chunk's
lowercased content. -/
def overlapCount (question_lower : String) (doc : Chunk) : ℕ :=
  (((pySplit question_lower).dedup).filter
    (fun w => w ∈ (pySplit (pyLower doc.content)).dedup)).length

/-- The per-chunk relevance computation inside `QAEngine.ask_question`. -/
def chunk_relevance (question_lower : String) (doc : Chunk) : ℚ :=
  let content := pyLower doc.content
  if containsAny question_lower ["horario", "hora", "abierto", "cerrado", "cuándo"] then
    if doc.source == "horarios" || doc.content_type == "horarios" then 1
    else if containsAny content ["horario", "hora", "abierto", "cerrado"] then 1/2
    else 0
  else if containsAny question_lower ["promoción", "descuento", "oferta", "suma", "gana", "puntos"] then
    if doc.source == "suma_gana" || doc.content_type == "promociones" then 1
    else if containsAny content ["promoción", "descuento", "suma", "gana", "puntos"] then 1/2
    else 0
  else if containsAny question_lower ["ayuda", "pueden", "puedo", "qué", "cómo"] then
    if doc.source == "preguntas_frecuentes" || doc.content_type == "preguntas_frecuentes" then 1
    else 3/10
  else
    if 0 < overlapCount question_lower doc then
      min ((overlapCount question_lower doc : ℚ) / (questionWordCount question_lower : ℚ)) 1
    else 0

/-- Python `source_relevance[source] = max(source_relevance.get(source, 0), relevance)`:
update the existing entry in place, else append (dict insertion order). -/
def upsertMax (m : List (String × ℚ)) (k : String) (v : ℚ) : List (String × ℚ) :=
  match m with
  | [] => [(k, v)]
  | (k', v') :: rest =>
      if k' = k then (k', max v' v) :: rest else (k', v') :: upsertMax rest k v

/-- One iteration of the source-attribution loop: record the chunk's source
only when its relevance is strictly above `0.3`. -/
def sourceStep (question_lower : String) (m : List (String × ℚ)) (doc : Chunk) :
    List (String × ℚ) :=
  if 3/10 < chunk_relevance question_lower doc then
    upsertMax m doc.source (chunk_relevance question_lower doc)
  else m

/-- The `source_relevance` dict built over the retrieved chunks. -/
def build_source_relevance (question_lower : String) (docs : List Chunk) :
    List (String × ℚ) :=
  docs.foldl (sourceStep question_lower) []

/-- Value lookup in the `source_relevance` dict (`0` when absent). -/
def relOf (m : List (String × ℚ)) (k : String) : ℚ :=
  ((m.find? (fun p => p.1 == k)).map Prod.snd).getD 0

/-- Descending order on dict entries by relevance, as used by
`sorted(..., key=lambda x: source_relevance[x], reverse=True)` (stable). -/
def relGE (a b : String × ℚ) : Prop := b.2 ≤ a.2

instance : DecidableRel relGE := fun a b => inferInstanceAs (Decidable (b.2 ≤ a.2))

instance : IsTotal (String × ℚ) relGE := ⟨fun a b => by unfold relGE; exact le_total b.2 a.2⟩

instance : IsTrans (String × ℚ) relGE :=
  ⟨fun _ _ _ hab hbc => by unfold relGE at *; exact le_trans hbc hab⟩

/-- Python `sorted(source_relevance.keys(), key=..., reverse=True)[:2]`. -/
def select_sources (m : List (String × ℚ)) : List String :=
  (((m.insertionSort relGE).map Prod.fst).take 2)

/-- The source-attribution block of `QAEngine.ask_question` (the rest of
`ask_question` orchestrates external providers). -/
def attribute_sources (question : String) (docs : List Chunk) : List String :=
  select_sources (build_source_relevance (pyLower question) docs)

/-! ## Auxiliary definitions for the verification statements -/

/-- Acceptance of a full name per the SPEC's stated pattern
`^[A-Za-zÀ-ÿÑñ\s]+$` with the non-empty and length
conditions — written from the spec's words, for comparison against the
implementation's `validate_nombre_completo`. -/
def spec_nombre_accepts (s : String) : Bool :=
  s.data ≠ [] && s.data.length ≤ 100 &&
  s.data.all (fun c =>
    isAsciiLetter c || (0xC0 ≤ c.toNat && c.toNat ≤ 0xFF) || c = 'Ñ' || c = 'ñ' || isPySpace c)

/-- A fixed engine collaborator (empty answer, no sources, quality score 0)
used to instantiate theorems at concrete inputs. -/
def qaConst : QAEnv := ⟨fun _ => ⟨"", [], some 0⟩⟩

/-- §3's session invariant: `current_user` is non-null exactly in the
terminal active state. -/
def sessionInv (s : Session) : Prop :=
  s.currentUser ≠ none ↔ s.conversation_state = some "chat_active"

/-- Sessions on which every dict access of `handle_message` succeeds: the
`user_data` key must be present in the data-collection states, holding the
fields stashed by the preceding states. -/
def sessionWF (s : Session) : Bool :=
  match s.conversation_state, s.user_data with
  | some "new_user_id", ud => ud.isSome
  | some "new_user_name", ud => ud.isSome
  | some "new_user_phone", ud => ud.isSome
  | some "new_user_email", some ud =>
      ud.identificacion.isSome && ud.nombre_completo.isSome && ud.telefono.isSome
  | some "new_user_email", none => false
  | _, _ => true

/-- The §4.1 transition table as a relation on state strings, with the
WELCOME row amended to what the code does on a non-empty first message
(direct classification, possibly remaining in WELCOME). -/
def allowedNext (src dst : String) : Bool :=
  (src == "welcome" && (dst == "identify_user_type" || dst == "new_user_id" ||
     dst == "existing_user_id" || dst == "welcome")) ||
  (src == "identify_user_type" && (dst == "new_user_id" || dst == "existing_user_id" ||
     dst == "identify_user_type")) ||
  (src == "existing_user_id" && (dst == "chat_active" || dst == "existing_user_id" ||
     dst == "identify_user_type")) ||
  (src == "new_user_id" && (dst == "new_user_id" || dst == "new_user_name")) ||
  (src == "new_user_name" && (dst == "new_user_name" || dst == "new_user_phone")) ||
  (src == "new_user_phone" && (dst == "new_user_phone" || dst == "new_user_email")) ||
  (src == "new_user_email" && (dst == "new_user_email" || dst == "chat_active")) ||
  (src == "chat_active" && dst == "chat_active")

/-- The per-source maximum of the surviving (`> 0.3`) chunk relevances, used
to characterise the deduplication in `attribute_sources`. -/
def maxRelevanceFor (question_lower : String) (docs : List Chunk) (srcName : String) : ℚ :=
  docs.foldl
    (fun acc d =>
      if d.source = srcName ∧ 3/10 < chunk_relevance question_lower d then
        max acc (chunk_relevance question_lower d)
      else acc) 0

/-! ## General lemmas -/

theorem find?_none_of_not_pred {α : Type} (p : α → Bool) (l : List α)
    (h : ∀ x ∈ l, p x = false) : l.find? p = none :=
  List.find?_eq_none.mpr (fun x hx => by simp [h x hx])

/-! ## C4, C5: user-store registration -/

/-- C4: whenever any row — active or deactivated — already holds the
identifier, `register_user` returns failure and leaves the store unchanged. -/
theorem register_user_rejects_present (st : Store)
    (identificacion nombre telefono email now : String)
    (h : ∃ r ∈ st, r.identificacion = identificacion) :
    register_user st identificacion nombre telefono email now = (false, st) := by
  rcases h with ⟨r, hr, hid⟩
  have hany : st.any (fun r => r.identificacion == identificacion) = true :=
    List.any_eq_true.mpr ⟨r, hr, by simp [hid]⟩
  cases hex : user_exists st identificacion <;>
    simp [register_user, hex, hany]

/-- C4 witness: a store holding a deactivated row for `"1234"` rejects a new
registration of `"1234"` untouched. -/
theorem register_user_rejects_present_witness :
    (∃ r ∈ ([⟨"1234", "Ana López", "3001234567", "ana@mail.com", "2024", false⟩] : Store),
        r.identificacion = "1234") ∧
    register_user [⟨"1234", "Ana López", "3001234567", "ana@mail.com", "2024", false⟩]
        "1234" "Otro Nombre" "6001234567" "otro@mail.com" "2025" =
      (false, [⟨"1234", "Ana López", "3001234567", "ana@mail.com", "2024", false⟩]) := by
  refine ⟨⟨_, List.mem_singleton_self _, rfl⟩, ?_⟩
  exact register_user_rejects_present _ _ _ _ _ _ ⟨_, List.mem_singleton_self _, rfl⟩

/-- C5: registering an identifier absent from the store succeeds and an
immediate `get_user` returns exactly the four submitted fields (plus the
registration timestamp). -/
theorem register_then_get (st : Store) (identificacion nombre telefono email now : String)
    (h : ∀ r ∈ st, r.identificacion ≠ identificacion) :
    register_user st identificacion nombre telefono email now =
      (true, st ++ [⟨identificacion, nombre, telefono, email, now, true⟩]) ∧
    get_user (st ++ [⟨identificacion, nombre, telefono, email, now, true⟩]) identificacion =
      some ⟨identificacion, nombre, telefono, email, now⟩ := by
  constructor
  · have hex : user_exists st identificacion = false := by
      rw [user_exists, List.any_eq_false]
      intro r hr
      simp [h r hr]
    have hany : st.any (fun r => r.identificacion == identificacion) = false := by
      rw [List.any_eq_false]
      intro r hr
      simp [h r hr]
    simp [register_user, hex, hany]
  · have hnone : st.find? (fun r => r.identificacion == identificacion && r.activo) = none := by
      apply find?_none_of_not_pred
      intro r hr
      simp [h r hr]
    rw [get_user, List.find?_append, hnone]
    simp [rowToUser]

/-- C5 witness: registering into the empty store and reading back. -/
theorem register_then_get_witness :
    (∀ r ∈ ([] : Store), r.identificacion ≠ "98765") ∧
    (register_user [] "98765" "Juan Pérez" "3001234567" "juan@mail.com" "2025" =
       (true, [⟨"98765", "Juan Pérez", "3001234567", "juan@mail.com", "2025", true⟩]) ∧
     get_user [⟨"98765", "Juan Pérez", "3001234567", "juan@mail.com", "2025", true⟩] "98765" =
       some ⟨"98765", "Juan Pérez", "3001234567", "juan@mail.com", "2025"⟩) :=
  ⟨fun r hr => absurd hr (List.not_mem_nil r),
   register_then_get [] "98765" "Juan Pérez" "3001234567" "juan@mail.com" "2025"
     (fun r hr => absurd hr (List.not_mem_nil r))⟩

/-! ## C6: the full-name validator -/

theorem nameChar_newline : nameChar '\n' = true := by decide

/-- On `^[a-zA-ZáéíóúÁÉÍÓÚñÑ\s]+$`, Python's trailing-newline `$` quirk is
absorbed: `\n` is in the class. -/
theorem reMatchDollar_nameCore (l : List Char) : reMatchDollar nameCore l = nameCore l := by
  unfold reMatchDollar
  cases hc : nameCore l with
  | true => simp
  | false =>
    simp only [Bool.false_or]
    split
    · next hlast =>
      cases hd : nameCore l.dropLast with
      | false => rfl
      | true =>
        exfalso
        have hne : l ≠ [] := by
          intro hnil; rw [hnil] at hlast; simp at hlast
        have hl : l.dropLast ++ [l.getLast hne] = l := List.dropLast_append_getLast hne
        have hlastv : l.getLast hne = '\n' := by
          have hg := List.getLast?_eq_getLast l hne
          rw [hg] at hlast
          exact Option.some_inj.mp hlast
        have hall : l.all nameChar = true := by
          rw [← hl, List.all_append]
          have hd2 := hd
          unfold nameCore at hd2
          have := (Bool.and_eq_true _ _).mp hd2
          simp [this.2, hlastv, nameChar_newline]
        have : nameCore l = true := by
          unfold nameCore
          rw [hall]
          have : l.isEmpty = false := by
            cases l
            · exact absurd rfl hne
            · rfl
          rw [this]
          rfl
        rw [this] at hc
        exact Bool.true_eq_false.mp hc
    · rfl

/-- C6 counterexample: `"ü"` (U+00FC, inside the range the spec's pattern
allows) is rejected by the implemented validator. -/
theorem nombre_validator_counterexample :
    (validate_nombre_completo "ü").1 = false ∧ spec_nombre_accepts "ü" = true := by
  constructor
  · rfl
  · rfl

/-- C6 amended: the validator accepts exactly the non-empty strings of at
most 100 characters drawn from ASCII letters, the five acute-accented vowels
in both cases, `ñ`/`Ñ` and whitespace — not the full `À`-`ÿ` range. -/
theorem nombre_validator_characterisation (s : String) :
    (validate_nombre_completo s).1 = true ↔
      (s.data ≠ [] ∧ s.data.length ≤ 100 ∧ s.data.all nameChar = true) := by
  unfold validate_nombre_completo
  by_cases h1 : s.data = []
  · simp [h1]
  · rw [if_neg h1]
    by_cases h2 : 100 < s.data.length
    · rw [if_pos h2]
      simp only [show ¬s.data.length ≤ 100 from not_le.mpr h2]
      simp
    · rw [if_neg h2]
      rw [reMatchDollar_nameCore]
      unfold nameCore
      by_cases h3 : (!s.data.isEmpty && s.data.all nameChar) = true
      · rw [if_pos h3]
        have := (Bool.and_eq_true _ _).mp h3
        simp only [true_iff]
        exact ⟨h1, not_lt.mp h2, this.2⟩
      · rw [if_neg h3]
        simp only [Bool.false_eq_true, false_iff]
        intro hcon
        apply h3
        rw [Bool.and_eq_true]
        refine ⟨?_, hcon.2.2⟩
        cases hs : s.data
        · exact absurd hs h1
        · rfl

/-! ## Controller dispatch lemmas -/

theorem initSession_of_some (s : Session) (cs : String)
    (h : s.conversation_state = some cs) : initSession s = s := by
  unfold initSession
  rw [h]
  rfl

theorem hm_welcome (qa : QAEnv) (now msg : String) (st : Store) (s : Session)
    (h : s.conversation_state = some "welcome") :
    handle_message qa now msg st s =
      (let r := handle_welcome (pyStrip (pyLower msg)) s; .ok (r.1, r.2, st)) := by
  unfold handle_message
  rw [initSession_of_some s _ h]
  simp only [h]

theorem hm_identify (qa : QAEnv) (now msg : String) (st : Store) (s : Session)
    (h : s.conversation_state = some "identify_user_type") :
    handle_message qa now msg st s =
      (let r := handle_user_type_identification (pyStrip (pyLower msg)) s; .ok (r.1, r.2, st)) := by
  unfold handle_message
  rw [initSession_of_some s _ h]
  simp only [h]

theorem hm_existing (qa : QAEnv) (now msg : String) (st : Store) (s : Session)
    (h : s.conversation_state = some "existing_user_id") :
    handle_message qa now msg st s =
      (let r := handle_existing_user_id msg st s; .ok (r.1, r.2, st)) := by
  unfold handle_message
  rw [initSession_of_some s _ h]
  simp only [h]

theorem hm_new_id (qa : QAEnv) (now msg : String) (st : Store) (s : Session)
    (h : s.conversation_state = some "new_user_id") :
    handle_message qa now msg st s =
      (handle_new_user_id msg st s).map (fun r => (r.1, r.2, st)) := by
  unfold handle_message
  rw [initSession_of_some s _ h]
  simp only [h]

theorem hm_new_name (qa : QAEnv) (now msg : String) (st : Store) (s : Session)
    (h : s.conversation_state = some "new_user_name") :
    handle_message qa now msg st s =
      (handle_new_user_name msg s).map (fun r => (r.1, r.2, st)) := by
  unfold handle_message
  rw [initSession_of_some s _ h]
  simp only [h]

theorem hm_new_phone (qa : QAEnv) (now msg : String) (st : Store) (s : Session)
    (h : s.conversation_state = some "new_user_phone") :
    handle_message qa now msg st s =
      (handle_new_user_phone msg s).map (fun r => (r.1, r.2, st)) := by
  unfold handle_message
  rw [initSession_of_some s _ h]
  simp only [h]

theorem hm_new_email (qa : QAEnv) (now msg : String) (st : Store) (s : Session)
    (h : s.conversation_state = some "new_user_email") :
    handle_message qa now msg st s = handle_new_user_email msg st now s := by
  unfold handle_message
  rw [initSession_of_some s _ h]
  simp only [h]

theorem hm_chat_active (qa : QAEnv) (now msg : String) (st : Store) (s : Session)
    (h : s.conversation_state = some "chat_active") :
    handle_message qa now msg st s =
      (let r := handle_active_chat qa msg s; .ok (r.1, r.2, st)) := by
  unfold handle_message
  rw [initSession_of_some s _ h]
  simp only [h]

theorem hm_none (qa : QAEnv) (now msg : String) (st : Store) (s : Session)
    (h : s.conversation_state = none) :
    handle_message qa now msg st s =
      handle_message qa now msg st
        ⟨some "welcome", some RegData.empty, some none⟩ := by
  have h1 : initSession s = ⟨some "welcome", some RegData.empty, some none⟩ := by
    unfold initSession
    rw [h]
    rfl
  unfold handle_message
  rw [h1]
  rfl

theorem hm_unknown (qa : QAEnv) (now msg : String) (st : Store) (s : Session) (cs : String)
    (h : s.conversation_state = some cs) (hdef : cs ∉ definedStates) :
    handle_message qa now msg st s =
      (let r := reset_conversation s; .ok (r.1, r.2, st)) := by
  unfold handle_message
  rw [initSession_of_some s _ h]
  simp only [h]
  have hne : ¬(cs = "welcome" ∨ cs = "identify_user_type" ∨ cs = "existing_user_id" ∨
      cs = "new_user_id" ∨ cs = "new_user_name" ∨ cs = "new_user_phone" ∨
      cs = "new_user_email" ∨ cs = "chat_active") := by
    simpa [definedStates] using hdef
  push_neg at hne
  split
  · next heq => exact absurd (Option.some_inj.mp heq) hne.1
  · next heq => exact absurd (Option.some_inj.mp heq) hne.2.1
  · next heq => exact absurd (Option.some_inj.mp heq) hne.2.2.1
  · next heq => exact absurd (Option.some_inj.mp heq) hne.2.2.2.1
  · next heq => exact absurd (Option.some_inj.mp heq) hne.2.2.2.2.1
  · next heq => exact absurd (Option.some_inj.mp heq) hne.2.2.2.2.2.1
  · next heq => exact absurd (Option.some_inj.mp heq) hne.2.2.2.2.2.2.1
  · next heq => exact absurd (Option.some_inj.mp heq) hne.2.2.2.2.2.2.2
  · rfl
  · next heq => exact absurd heq (by simp)

/-! ## Per-state step lemmas -/

theorem step_welcome (qa : QAEnv) (now msg : String) (st : Store) (s : Session)
    (h : s.conversation_state = some "welcome") :
    ∃ reply s', handle_message qa now msg st s = .ok (reply, s', st) ∧
      s'.current_user = s.current_user ∧
      (s'.conversation_state = some "identify_user_type" ∨
       s'.conversation_state = some "new_user_id" ∨
       s'.conversation_state = some "existing_user_id" ∨
       s'.conversation_state = some "welcome") := by
  rw [hm_welcome qa now msg st s h]
  simp only [handle_welcome, handle_user_type_identification]
  split_ifs
  · exact ⟨_, _, rfl, rfl, Or.inl rfl⟩
  · exact ⟨_, _, rfl, rfl, Or.inr (Or.inl rfl)⟩
  · exact ⟨_, _, rfl, rfl, Or.inr (Or.inr (Or.inl rfl))⟩
  · exact ⟨_, _, rfl, rfl, Or.inr (Or.inr (Or.inr h))⟩

theorem step_identify (qa : QAEnv) (now msg : String) (st : Store) (s : Session)
    (h : s.conversation_state = some "identify_user_type") :
    ∃ reply s', handle_message qa now msg st s = .ok (reply, s', st) ∧
      s'.current_user = s.current_user ∧
      (s'.conversation_state = some "new_user_id" ∨
       s'.conversation_state = some "existing_user_id" ∨
       s'.conversation_state = some "identify_user_type") := by
  rw [hm_identify qa now msg st s h]
  simp only [handle_user_type_identification]
  split_ifs
  · exact ⟨_, _, rfl, rfl, Or.inl rfl⟩
  · exact ⟨_, _, rfl, rfl, Or.inr (Or.inl rfl)⟩
  · exact ⟨_, _, rfl, rfl, Or.inr (Or.inr h)⟩

theorem step_existing (qa : QAEnv) (now msg : String) (st : Store) (s : Session)
    (h : s.conversation_state = some "existing_user_id") :
    ∃ reply s', handle_message qa now msg st s = .ok (reply, s', st) ∧
      ((∃ u, s'.current_user = some (some u) ∧ s'.conversation_state = some "chat_active") ∨
       (s'.current_user = s.current_user ∧
        (s'.conversation_state = some "existing_user_id" ∨
         s'.conversation_state = some "identify_user_type"))) := by
  rw [hm_existing qa now msg st s h]
  simp only [handle_existing_user_id]
  split_ifs
  · exact ⟨_, _, rfl, Or.inr ⟨rfl, Or.inl h⟩⟩
  · cases hu : get_user st (pyStrip msg) with
    | some user =>
        simp only [hu]
        exact ⟨_, _, rfl, Or.inl ⟨user, rfl, rfl⟩⟩
    | none =>
        simp only [hu]
        exact ⟨_, _, rfl, Or.inr ⟨rfl, Or.inr rfl⟩⟩

theorem step_new_id (qa : QAEnv) (now msg : String) (st : Store) (s : Session)
    (h : s.conversation_state = some "new_user_id") (hud : s.user_data.isSome = true) :
    ∃ reply s', handle_message qa now msg st s = .ok (reply, s', st) ∧
      s'.current_user = s.current_user ∧
      (s'.conversation_state = some "new_user_id" ∨
       s'.conversation_state = some "new_user_name") := by
  rw [hm_new_id qa now msg st s h]
  simp only [handle_new_user_id]
  split_ifs
  · exact ⟨_, _, rfl, rfl, Or.inl h⟩
  · exact ⟨_, _, rfl, rfl, Or.inl h⟩
  · obtain ⟨ud, hud'⟩ := Option.isSome_iff_exists.mp hud
    simp only [hud']
    exact ⟨_, _, rfl, rfl, Or.inr rfl⟩

theorem step_new_name (qa : QAEnv) (now msg : String) (st : Store) (s : Session)
    (h : s.conversation_state = some "new_user_name") (hud : s.user_data.isSome = true) :
    ∃ reply s', handle_message qa now msg st s = .ok (reply, s', st) ∧
      s'.current_user = s.current_user ∧
      (s'.conversation_state = some "new_user_name" ∨
       s'.conversation_state = some "new_user_phone") := by
  rw [hm_new_name qa now msg st s h]
  simp only [handle_new_user_name]
  split_ifs
  · exact ⟨_, _, rfl, rfl, Or.inl h⟩
  · obtain ⟨ud, hud'⟩ := Option.isSome_iff_exists.mp hud
    simp only [hud']
    exact ⟨_, _, rfl, rfl, Or.inr rfl⟩

theorem step_new_phone (qa : QAEnv) (now msg : String) (st : Store) (s : Session)
    (h : s.conversation_state = some "new_user_phone") (hud : s.user_data.isSome = true) :
    ∃ reply s', handle_message qa now msg st s = .ok (reply, s', st) ∧
      s'.current_user = s.current_user ∧
      (s'.conversation_state = some "new_user_phone" ∨
       s'.conversation_state = some "new_user_email") := by
  rw [hm_new_phone qa now msg st s h]
  simp only [handle_new_user_phone]
  split_ifs
  · exact ⟨_, _, rfl, rfl, Or.inl h⟩
  · obtain ⟨ud, hud'⟩ := Option.isSome_iff_exists.mp hud
    simp only [hud']
    exact ⟨_, _, rfl, rfl, Or.inr rfl⟩

/-- After a successful `register_user`, `get_user` finds exactly the inserted
row. -/
theorem get_user_after_register (st : Store) (i n t e now : String) (st' : Store)
    (h : register_user st i n t e now = (true, st')) :
    get_user st' i = some ⟨i, n, t, e, now⟩ := by
  unfold register_user at h
  split_ifs at h with h1 h2
  · exact absurd h (by simp)
  · exact absurd h (by simp)
  · have hany : st.any (fun r => r.identificacion == i) = false := Bool.not_eq_true _ |>.mp h2
    have hall := List.any_eq_false.mp hany
    have hst : st ++ [⟨i, n, t, e, now, true⟩] = st' := (Prod.mk.injEq _ _ _ _ |>.mp h).2
    have hnone : st.find? (fun r => r.identificacion == i && r.activo) = none := by
      apply find?_none_of_not_pred
      intro r hr
      simp only [Bool.and_eq_false_iff]
      left
      exact Bool.eq_false_iff.mpr (hall r hr)
    rw [← hst, get_user, List.find?_append, hnone]
    simp [rowToUser]

theorem step_new_email (qa : QAEnv) (now msg : String) (st : Store) (s : Session)
    (h : s.conversation_state = some "new_user_email")
    (hud : ∃ ud, s.user_data = some ud ∧ ud.identificacion.isSome ∧
           ud.nombre_completo.isSome ∧ ud.telefono.isSome) :
    ∃ reply s' st', handle_message qa now msg st s = .ok (reply, s', st') ∧
      ((∃ u, s'.current_user = some (some u) ∧ s'.conversation_state = some "chat_active") ∨
       (s'.current_user = s.current_user ∧ s'.conversation_state = some "new_user_email")) := by
  rw [hm_new_email qa now msg st s h]
  simp only [handle_new_user_email]
  split_ifs
  · exact ⟨_, _, _, rfl, Or.inr ⟨rfl, h⟩⟩
  · obtain ⟨ud, hud', hid, hnom, htel⟩ := hud
    obtain ⟨idv, hidv⟩ := Option.isSome_iff_exists.mp hid
    obtain ⟨nomv, hnomv⟩ := Option.isSome_iff_exists.mp hnom
    obtain ⟨telv, htelv⟩ := Option.isSome_iff_exists.mp htel
    obtain ⟨oid, onom, otel, oem⟩ := ud
    simp only at hidv hnomv htelv
    subst hidv hnomv htelv
    simp only [hud']
    rcases hreg : register_user st idv nomv telv (pyStrip msg) now with ⟨b, st2⟩
    cases b with
    | true =>
        simp only [hreg]
        obtain ⟨u, hu⟩ := Option.isSome_iff_exists.mp
          (by rw [get_user_after_register st idv nomv telv (pyStrip msg) now st2 hreg]; rfl :
            (get_user st2 idv).isSome = true)
        simp only [hu]
        exact ⟨_, _, _, rfl, Or.inl ⟨u, by simp [hu], rfl⟩⟩
    | false =>
        simp only [hreg]
        exact ⟨_, _, _, rfl, Or.inr ⟨rfl, h⟩⟩

theorem step_chat_active (qa : QAEnv) (now msg : String) (st : Store) (s : Session)
    (h : s.conversation_state = some "chat_active") :
    handle_message qa now msg st s = .ok ((handle_active_chat qa msg s).1, s, st) := by
  rw [hm_chat_active qa now msg st s h]
  have h2 : (handle_active_chat qa msg s).2 = s := by
    simp only [handle_active_chat, respond_bot_capabilities]
    split_ifs <;> rfl
  show Except.ok ((handle_active_chat qa msg s).1, (handle_active_chat qa msg s).2, st) = _
  rw [h2]

/-! ## Whitespace-stripping lemmas -/

theorem all_dropWhile (p : α → Bool) (l : List α) : (l.dropWhile p).all p = l.all p := by
  induction l with
  | nil => rfl
  | cons a t ih =>
    cases hp : p a
    · simp [List.dropWhile_cons, hp]
    · simp [List.dropWhile_cons, hp, ih]

theorem all_strip (s : String) :
    (pyStrip s).data.all isPySpace = s.data.all isPySpace := by
  show ((((s.data.dropWhile isPySpace).reverse.dropWhile isPySpace).reverse).all isPySpace) = _
  rw [List.all_reverse, all_dropWhile, List.all_reverse, all_dropWhile]

theorem strip_empty_iff (s : String) :
    (pyStrip s).data = [] ↔ s.data.all isPySpace = true := by
  show ((((s.data.dropWhile isPySpace).reverse.dropWhile isPySpace).reverse) = []) ↔ _
  rw [List.reverse_eq_nil_iff, List.dropWhile_eq_nil_iff]
  constructor
  · intro h
    have h2 : (s.data.dropWhile isPySpace).all isPySpace = true :=
      List.all_eq_true.mpr (fun x hx => h x (List.mem_reverse.mpr hx))
    rw [all_dropWhile] at h2
    exact h2
  · intro h x hx
    have h2 : (s.data.dropWhile isPySpace).all isPySpace = true := by
      rw [all_dropWhile]
      exact h
    exact List.all_eq_true.mp h2 x (List.mem_reverse.mp hx)

/-! ## Invariant helper lemmas -/

theorem inv_of_cu_none (s' : Session) (hcu : s'.currentUser = none)
    (hstate : s'.conversation_state ≠ some "chat_active") : sessionInv s' := by
  unfold sessionInv
  rw [hcu]
  simp [hstate]

theorem inv_of_cu_some (s' : Session) (u : User) (hcu : s'.current_user = some (some u))
    (hstate : s'.conversation_state = some "chat_active") : sessionInv s' := by
  unfold sessionInv Session.currentUser
  rw [hcu, hstate]
  simp

theorem cu_none_of_inv (s : Session) (hinv : sessionInv s)
    (h : s.conversation_state ≠ some "chat_active") : s.currentUser = none := by
  by_contra hne
  exact h (hinv.mp hne)

/-! ## C1: state-machine totality -/

/-- C1 counterexample: a session carrying `conversation_state` but lacking
`user_data` raises `KeyError` out of `handle_message` on a valid name input in
state `new_user_name`. -/
theorem totality_counterexample :
    handle_message qaConst "2024-01-01" "Juan" []
        ⟨some "new_user_name", none, none⟩ =
      .error (.keyError "user_data") := rfl

/-- C1 (amended): for sessions that, in the registration states, carry the
`user_data` mapping with the fields stashed by the preceding states, every
message from each of the eight defined states yields a normal return whose
next state is in the §4.1 table with the WELCOME row amended (a non-empty
first message is classified directly, so WELCOME may also step to
NEW_USER_ID or EXISTING_USER_ID or stay WELCOME). -/
theorem state_machine_totality (qa : QAEnv) (now msg : String) (st : Store) (s : Session)
    (cs : String) (hcs : s.conversation_state = some cs) (hdef : cs ∈ definedStates)
    (hwf : sessionWF s = true) :
    ∃ reply s' st', handle_message qa now msg st s = .ok (reply, s', st') ∧
      ∃ cs', s'.conversation_state = some cs' ∧ allowedNext cs cs' = true := by
  simp only [definedStates, List.mem_cons, List.not_mem_nil, or_false] at hdef
  rcases hdef with h|h|h|h|h|h|h|h <;> subst h
  · obtain ⟨r, s', heq, -, hst⟩ := step_welcome qa now msg st s hcs
    refine ⟨r, s', st, heq, ?_⟩
    rcases hst with h'|h'|h'|h' <;> exact ⟨_, h', rfl⟩
  · obtain ⟨r, s', heq, -, hst⟩ := step_identify qa now msg st s hcs
    refine ⟨r, s', st, heq, ?_⟩
    rcases hst with h'|h'|h' <;> exact ⟨_, h', rfl⟩
  · obtain ⟨r, s', heq, hout⟩ := step_existing qa now msg st s hcs
    refine ⟨r, s', st, heq, ?_⟩
    rcases hout with ⟨u, -, h'⟩ | ⟨-, h'|h'⟩ <;> exact ⟨_, h', rfl⟩
  · have hud : s.user_data.isSome = true := by
      rcases hu : s.user_data with _ | ud
      · simp [sessionWF, hcs, hu] at hwf
      · rfl
    obtain ⟨r, s', heq, -, hst⟩ := step_new_id qa now msg st s hcs hud
    refine ⟨r, s', st, heq, ?_⟩
    rcases hst with h'|h' <;> exact ⟨_, h', rfl⟩
  · have hud : s.user_data.isSome = true := by
      rcases hu : s.user_data with _ | ud
      · simp [sessionWF, hcs, hu] at hwf
      · rfl
    obtain ⟨r, s', heq, -, hst⟩ := step_new_name qa now msg st s hcs hud
    refine ⟨r, s', st, heq, ?_⟩
    rcases hst with h'|h' <;> exact ⟨_, h', rfl⟩
  · have hud : s.user_data.isSome = true := by
      rcases hu : s.user_data with _ | ud
      · simp [sessionWF, hcs, hu] at hwf
      · rfl
    obtain ⟨r, s', heq, -, hst⟩ := step_new_phone qa now msg st s hcs hud
    refine ⟨r, s', st, heq, ?_⟩
    rcases hst with h'|h' <;> exact ⟨_, h', rfl⟩
  · have hud : ∃ ud, s.user_data = some ud ∧ ud.identificacion.isSome ∧
        ud.nombre_completo.isSome ∧ ud.telefono.isSome := by
      rcases hu : s.user_data with _ | ud
      · simp [sessionWF, hcs, hu] at hwf
      · simp only [sessionWF, hcs, hu, Bool.and_eq_true] at hwf
        exact ⟨ud, rfl, hwf.1.1, hwf.1.2, hwf.2⟩
    obtain ⟨r, s', st', heq, hout⟩ := step_new_email qa now msg st s hcs hud
    refine ⟨r, s', st', heq, ?_⟩
    rcases hout with ⟨u, -, h'⟩ | ⟨-, h'⟩ <;> exact ⟨_, h', rfl⟩
  · exact ⟨_, s, st, step_chat_active qa now msg st s hcs, "chat_active", hcs, rfl⟩

/-- C1 witness: the amended totality applied to a concrete session. -/
theorem state_machine_totality_witness :
    (⟨some "welcome", some RegData.empty, some none⟩ : Session).conversation_state =
        some "welcome" ∧
    "welcome" ∈ definedStates ∧
    sessionWF ⟨some "welcome", some RegData.empty, some none⟩ = true ∧
    (∃ reply s' st',
      handle_message qaConst "2024-01-01" "hola" []
          ⟨some "welcome", some RegData.empty, some none⟩ = .ok (reply, s', st') ∧
      ∃ cs', s'.conversation_state = some cs' ∧ allowedNext "welcome" cs' = true) :=
  ⟨rfl, by decide, rfl,
   state_machine_totality qaConst "2024-01-01" "hola" [] _ "welcome" rfl (by decide) rfl⟩

/-! ## C3: the session invariant -/

/-- C3: `handle_message` preserves the invariant that `current_user` is
non-null exactly in the terminal `chat_active` state (on sessions whose dict
accesses succeed), and returns normally. -/
theorem session_invariant_preserved (qa : QAEnv) (now msg : String) (st : Store) (s : Session)
    (hwf : sessionWF s = true) (hinv : sessionInv s) :
    ∃ reply s' st', handle_message qa now msg st s = .ok (reply, s', st') ∧ sessionInv s' := by
  cases hcs : s.conversation_state with
  | none =>
    rw [hm_none qa now msg st s hcs]
    obtain ⟨r, s', heq, hcu, hst⟩ :=
      step_welcome qa now msg st ⟨some "welcome", some RegData.empty, some none⟩ rfl
    refine ⟨r, s', st, heq, inv_of_cu_none s' ?_ ?_⟩
    · show s'.current_user.getD none = none
      rw [hcu]
      rfl
    · rcases hst with h'|h'|h'|h' <;> rw [h'] <;> decide
  | some cs =>
    by_cases hdef : cs ∈ definedStates
    · have hne : ∀ lit : String, cs = lit → lit ≠ "chat_active" →
          s.currentUser = none := by
        intro lit hlit hnecs
        exact cu_none_of_inv s hinv (by rw [hcs, hlit]; simp [hnecs])
      simp only [definedStates, List.mem_cons, List.not_mem_nil, or_false] at hdef
      rcases hdef with h|h|h|h|h|h|h|h
      · obtain ⟨r, s', heq, hcu, hst⟩ := step_welcome qa now msg st s (h ▸ hcs)
        refine ⟨r, s', st, heq, inv_of_cu_none s' ?_ ?_⟩
        · show s'.current_user.getD none = none
          rw [hcu]
          exact hne _ h (by decide)
        · rcases hst with h'|h'|h'|h' <;> rw [h'] <;> decide
      · obtain ⟨r, s', heq, hcu, hst⟩ := step_identify qa now msg st s (h ▸ hcs)
        refine ⟨r, s', st, heq, inv_of_cu_none s' ?_ ?_⟩
        · show s'.current_user.getD none = none
          rw [hcu]
          exact hne _ h (by decide)
        · rcases hst with h'|h'|h' <;> rw [h'] <;> decide
      · obtain ⟨r, s', heq, hout⟩ := step_existing qa now msg st s (h ▸ hcs)
        refine ⟨r, s', st, heq, ?_⟩
        rcases hout with ⟨u, hcu, h'⟩ | ⟨hcu, h'|h'⟩
        · exact inv_of_cu_some s' u hcu h'
        · refine inv_of_cu_none s' ?_ (by rw [h']; decide)
          show s'.current_user.getD none = none
          rw [hcu]
          exact hne _ h (by decide)
        · refine inv_of_cu_none s' ?_ (by rw [h']; decide)
          show s'.current_user.getD none = none
          rw [hcu]
          exact hne _ h (by decide)
      · have hud : s.user_data.isSome = true := by
          rcases hu : s.user_data with _ | ud
          · simp [sessionWF, h ▸ hcs, hu] at hwf
          · rfl
        obtain ⟨r, s', heq, hcu, hst⟩ := step_new_id qa now msg st s (h ▸ hcs) hud
        refine ⟨r, s', st, heq, inv_of_cu_none s' ?_ ?_⟩
        · show s'.current_user.getD none = none
          rw [hcu]
          exact hne _ h (by decide)
        · rcases hst with h'|h' <;> rw [h'] <;> decide
      · have hud : s.user_data.isSome = true := by
          rcases hu : s.user_data with _ | ud
          · simp [sessionWF, h ▸ hcs, hu] at hwf
          · rfl
        obtain ⟨r, s', heq, hcu, hst⟩ := step_new_name qa now msg st s (h ▸ hcs) hud
        refine ⟨r, s', st, heq, inv_of_cu_none s' ?_ ?_⟩
        · show s'.current_user.getD none = none
          rw [hcu]
          exact hne _ h (by decide)
        · rcases hst with h'|h' <;> rw [h'] <;> decide
      · have hud : s.user_data.isSome = true := by
          rcases hu : s.user_data with _ | ud
          · simp [sessionWF, h ▸ hcs, hu] at hwf
          · rfl
        obtain ⟨r, s', heq, hcu, hst⟩ := step_new_phone qa now msg st s (h ▸ hcs) hud
        refine ⟨r, s', st, heq, inv_of_cu_none s' ?_ ?_⟩
        · show s'.current_user.getD none = none
          rw [hcu]
          exact hne _ h (by decide)
        · rcases hst with h'|h' <;> rw [h'] <;> decide
      · have hud : ∃ ud, s.user_data = some ud ∧ ud.identificacion.isSome ∧
            ud.nombre_completo.isSome ∧ ud.telefono.isSome := by
          rcases hu : s.user_data with _ | ud
          · simp [sessionWF, h ▸ hcs, hu] at hwf
          · simp only [sessionWF, h ▸ hcs, hu, Bool.and_eq_true] at hwf
            exact ⟨ud, rfl, hwf.1.1, hwf.1.2, hwf.2⟩
        obtain ⟨r, s', st', heq, hout⟩ := step_new_email qa now msg st s (h ▸ hcs) hud
        refine ⟨r, s', st', heq, ?_⟩
        rcases hout with ⟨u, hcu, h'⟩ | ⟨hcu, h'⟩
        · exact inv_of_cu_some s' u hcu h'
        · refine inv_of_cu_none s' ?_ (by rw [h']; decide)
          show s'.current_user.getD none = none
          rw [hcu]
          exact hne _ h (by decide)
      · refine ⟨_, s, st, step_chat_active qa now msg st s (h ▸ hcs), hinv⟩
    · rw [hm_unknown qa now msg st s cs hcs hdef]
      refine ⟨_, _, st, rfl, inv_of_cu_none _ rfl (by simp [reset_conversation])⟩

/-- C3 witness: the invariant step applied to a concrete
just-initialised session. -/
theorem session_invariant_preserved_witness :
    sessionWF ⟨some "welcome", some RegData.empty, some none⟩ = true ∧
    sessionInv ⟨some "welcome", some RegData.empty, some none⟩ ∧
    (∃ reply s' st',
      handle_message qaConst "2024-01-01" "hola" []
          ⟨some "welcome", some RegData.empty, some none⟩ = .ok (reply, s', st') ∧
      sessionInv s') :=
  ⟨rfl, by unfold sessionInv Session.currentUser; decide,
   session_invariant_preserved qaConst "2024-01-01" "hola" [] _ rfl
     (by unfold sessionInv Session.currentUser; decide)⟩

/-! ## C2: behaviour of the WELCOME state -/

/-- C2 counterexample: in WELCOME the non-empty message `"hola"` does not
transition to IDENTIFY_USER_TYPE and the reply is not the welcome text — the
session stays in WELCOME with the clarification prompt. -/
theorem welcome_counterexample :
    handle_message qaConst "2024-01-01" "hola" []
        ⟨some "welcome", some RegData.empty, some none⟩ =
      .ok ("No entendí tu respuesta. Por favor indica si eres un cliente nuevo o ya tienes cuenta con nosotros.",
           ⟨some "welcome", some RegData.empty, some none⟩, []) ∧
    (some "welcome" : Option String) ≠ some "identify_user_type" ∧
    "No entendí tu respuesta. Por favor indica si eres un cliente nuevo o ya tienes cuenta con nosotros." ≠
      welcomeMessage :=
  ⟨rfl, by decide, by decide⟩

/-- C2 (amended): in WELCOME a whitespace-only message yields the fixed
welcome text and transitions to IDENTIFY_USER_TYPE; a non-empty message is
classified directly (new-user keywords → NEW_USER_ID, else existing-user
keywords → EXISTING_USER_ID, else the state stays WELCOME); the fresh-session
scenario (`{}`, `""`) holds as stated. -/
theorem welcome_state_behaviour (qa : QAEnv) (now msg : String) (st : Store) (s : Session)
    (h : s.conversation_state = some "welcome") :
    ((pyLower msg).data.all isPySpace = true →
       handle_message qa now msg st s =
         .ok (welcomeMessage, { s with conversation_state := some "identify_user_type" }, st)) ∧
    ((pyLower msg).data.all isPySpace = false →
       ∃ reply s', handle_message qa now msg st s = .ok (reply, s', st) ∧
         s'.conversation_state = some
           (if containsAny (pyStrip (pyLower msg)) ["nuevo", "nueva", "registrar", "registro"] then
              "new_user_id"
            else if containsAny (pyStrip (pyLower msg))
                ["frecuente", "cuenta", "tengo", "ya", "registrado"] then
              "existing_user_id"
            else "welcome")) ∧
    handle_message qaConst "2024-01-01" "" [] ⟨none, none, none⟩ =
      .ok (welcomeMessage, ⟨some "identify_user_type", some RegData.empty, some none⟩, []) := by
  refine ⟨?_, ?_, rfl⟩
  · intro hws
    rw [hm_welcome qa now msg st s h]
    have h1 : (pyStrip (pyStrip (pyLower msg))).data = [] := by
      rw [strip_empty_iff, all_strip]
      exact hws
    simp only [handle_welcome, h1, if_pos]
  · intro hws
    rw [hm_welcome qa now msg st s h]
    have h1 : ¬((pyStrip (pyStrip (pyLower msg))).data = []) := by
      rw [strip_empty_iff, all_strip, hws]
      exact Bool.false_ne_true
    simp only [handle_welcome, if_neg h1, handle_user_type_identification]
    split_ifs with hn hf
    · exact ⟨_, _, rfl, rfl⟩
    · exact ⟨_, _, rfl, rfl⟩
    · exact ⟨_, _, rfl, h⟩

/-- C2 witness: the amended behaviour applied to the whitespace-only message
`" "` in a concrete WELCOME session. -/
theorem welcome_state_behaviour_witness :
    (⟨some "welcome", some RegData.empty, some none⟩ : Session).conversation_state =
        some "welcome" ∧
    (pyLower " ").data.all isPySpace = true ∧
    handle_message qaConst "2024-01-01" " " []
        ⟨some "welcome", some RegData.empty, some none⟩ =
      .ok (welcomeMessage,
           { (⟨some "welcome", some RegData.empty, some none⟩ : Session) with
             conversation_state := some "identify_user_type" }, []) :=
  ⟨rfl, rfl,
   (welcome_state_behaviour qaConst "2024-01-01" " " []
      ⟨some "welcome", some RegData.empty, some none⟩ rfl).1 rfl⟩

/-! ## C10: keyword precedence in IDENTIFY_USER_TYPE -/

/-- C10: when the lowercased stripped message contains both a new-user
keyword and an existing-user keyword, the new-user branch wins and the next
state is NEW_USER_ID. -/
theorem new_user_keyword_precedence (qa : QAEnv) (now msg : String) (st : Store) (s : Session)
    (hstate : s.conversation_state = some "identify_user_type")
    (hnew : containsAny (pyStrip (pyLower msg)) ["nuevo", "nueva", "registrar", "registro"] = true)
    (_hexist : containsAny (pyStrip (pyLower msg))
        ["frecuente", "cuenta", "tengo", "ya", "registrado"] = true) :
    handle_message qa now msg st s =
      .ok ("Perfecto! Vamos a registrarte. Primero necesito tu número de identificación (entre 4 y 11 dígitos):",
           { s with conversation_state := some "new_user_id" }, st) := by
  rw [hm_identify qa now msg st s hstate]
  simp only [handle_user_type_identification, hnew, if_pos]

/-- C10 witness: `"ya quiero registrarme"` contains `"registrar"` (new) and
`"ya"` (existing); the next state is NEW_USER_ID. -/
theorem new_user_keyword_precedence_witness :
    containsAny (pyStrip (pyLower "ya quiero registrarme"))
        ["nuevo", "nueva", "registrar", "registro"] = true ∧
    containsAny (pyStrip (pyLower "ya quiero registrarme"))
        ["frecuente", "cuenta", "tengo", "ya", "registrado"] = true ∧
    handle_message qaConst "2024-01-01" "ya quiero registrarme" []
        ⟨some "identify_user_type", some RegData.empty, some none⟩ =
      .ok ("Perfecto! Vamos a registrarte. Primero necesito tu número de identificación (entre 4 y 11 dígitos):",
           { (⟨some "identify_user_type", some RegData.empty, some none⟩ : Session) with
             conversation_state := some "new_user_id" }, []) :=
  ⟨rfl, rfl,
   new_user_keyword_precedence qaConst "2024-01-01" "ya quiero registrarme" []
     ⟨some "identify_user_type", some RegData.empty, some none⟩ rfl rfl rfl⟩

/-! ## C9: the quality-score suggestion gate -/

theorem suggestions_length (q : String) : (get_context_aware_suggestions q).length = 2 := by
  simp only [get_context_aware_suggestions]
  split_ifs <;> rfl

theorem suggestions_ne_nil (q : String) : get_context_aware_suggestions q ≠ [] := by
  intro hc
  have h := suggestions_length q
  rw [hc] at h
  simp at h

/-- C9: in CHAT_ACTIVE (for messages that reach the engine), a quality score
below 0.6 makes the controller append the "you might also ask" section with at
most two suggestions, and a score of 0.6 or more leaves the reply without that
section (answer plus the optional sources footer only). -/
theorem suggestion_gate (qa : QAEnv) (now msg : String) (st : Store) (s : Session)
    (hstate : s.conversation_state = some "chat_active")
    (hcap : is_bot_capability_question (pyStrip (pyLower msg)) = false) :
    ((qa.ask msg).quality_score.getD 0 < 3/5 →
       handle_message qa now msg st s =
         .ok ((if (qa.ask msg).sources ≠ [] then
                 (qa.ask msg).answer ++ "\n\n📚 *Información obtenida de: " ++
                   String.intercalate ", " (qa.ask msg).sources ++ "*"
               else (qa.ask msg).answer) ++
              suggestionHeader ++ bulletLines ((get_context_aware_suggestions msg).take 2),
              s, st) ∧
       ((get_context_aware_suggestions msg).take 2).length ≤ 2) ∧
    (3/5 ≤ (qa.ask msg).quality_score.getD 0 →
       handle_message qa now msg st s =
         .ok ((if (qa.ask msg).sources ≠ [] then
                 (qa.ask msg).answer ++ "\n\n📚 *Información obtenida de: " ++
                   String.intercalate ", " (qa.ask msg).sources ++ "*"
               else (qa.ask msg).answer), s, st)) := by
  have hbase := step_chat_active qa now msg st s hstate
  constructor
  · intro hlt
    constructor
    · rw [hbase]
      simp only [handle_active_chat, hcap, Bool.false_eq_true, if_false,
        if_pos hlt, suggestions_ne_nil msg, ne_eq, not_false_eq_true, if_pos]
    · rw [List.length_take]
      exact min_le_left _ _
  · intro hge
    rw [hbase]
    simp only [handle_active_chat, hcap, Bool.false_eq_true, if_false,
      if_neg (not_lt.mpr hge)]

/-- C9 witness: with the constant engine (score 0) on a non-capability
message, the suggestion section is appended with two bullets. -/
theorem suggestion_gate_witness :
    (⟨some "chat_active", some RegData.empty, some none⟩ : Session).conversation_state =
        some "chat_active" ∧
    is_bot_capability_question (pyStrip (pyLower "zz")) = false ∧
    (qaConst.ask "zz").quality_score.getD 0 < 3/5 ∧
    handle_message qaConst "2024-01-01" "zz" []
        ⟨some "chat_active", some RegData.empty, some none⟩ =
      .ok ((if (qaConst.ask "zz").sources ≠ [] then
              (qaConst.ask "zz").answer ++ "\n\n📚 *Información obtenida de: " ++
                String.intercalate ", " (qaConst.ask "zz").sources ++ "*"
            else (qaConst.ask "zz").answer) ++
           suggestionHeader ++ bulletLines ((get_context_aware_suggestions "zz").take 2),
           ⟨some "chat_active", some RegData.empty, some none⟩, []) :=
  ⟨rfl, by decide, by norm_num [qaConst],
   ((suggestion_gate qaConst "2024-01-01" "zz" []
       ⟨some "chat_active", some RegData.empty, some none⟩ rfl (by decide)).1
     (by norm_num [qaConst])).1⟩

/-! ## C7: the quality score -/

theorem foldl_add_if (p : String → Bool) (c : ℚ) (l : List String) : ∀ a : ℚ,
    l.foldl (fun acc w => if p w then acc + c else acc) a =
      a + ((l.filter p).length : ℚ) * c := by
  induction l with
  | nil => intro a; simp
  | cons w t ih =>
    intro a
    cases hp : p w
    · simp only [List.foldl_cons, hp, Bool.false_eq_true, if_false, List.filter_cons, ih]
    · simp only [List.foldl_cons, hp, if_true, List.filter_cons, ih, List.length_cons]
      push_cast
      ring

/-- C7: the quality score equals the capped additive formula (+0.4 for any
retrieved document, +0.2 more for more than one, +0.3 for an answer length
strictly between 50 and 800, +0.05 per relevant word occurring in both the
question and the answer), and always lies in [0, 1]. -/
theorem quality_score_formula (res : QAResult) (q : String) :
    calculate_quality_score res q =
      min ((match res.source_documents with
            | some docs => if docs ≠ [] then 2/5 + (if 1 < docs.length then 1/5 else 0) else 0
            | none => 0) +
           (if 50 < res.result.data.length ∧ res.result.data.length < 800 then (3 : ℚ)/10 else 0) +
           ((relevantWords.filter (fun w =>
               containsSub (pyLower q) w && containsSub (pyLower res.result) w)).length : ℚ) *
             (1/20)) 1 ∧
    0 ≤ calculate_quality_score res q ∧ calculate_quality_score res q ≤ 1 := by
  have heq : calculate_quality_score res q =
      min ((match res.source_documents with
            | some docs => if docs ≠ [] then 2/5 + (if 1 < docs.length then 1/5 else 0) else 0
            | none => 0) +
           (if 50 < res.result.data.length ∧ res.result.data.length < 800 then (3 : ℚ)/10 else 0) +
           ((relevantWords.filter (fun w =>
               containsSub (pyLower q) w && containsSub (pyLower res.result) w)).length : ℚ) *
             (1/20)) 1 := by
    simp only [calculate_quality_score]
    rw [foldl_add_if]
    congr 1
    split_ifs <;> ring
  refine ⟨heq, ?_, ?_⟩
  · rw [heq]
    have hb : (0 : ℚ) ≤
        match res.source_documents with
        | some docs => if docs ≠ [] then 2/5 + (if 1 < docs.length then 1/5 else 0) else 0
        | none => 0 := by
      cases res.source_documents with
      | none => dsimp only; norm_num
      | some docs => dsimp only; split_ifs <;> norm_num
    have hl : (0 : ℚ) ≤
        if 50 < res.result.data.length ∧ res.result.data.length < 800 then (3 : ℚ)/10 else 0 := by
      split_ifs <;> norm_num
    have hc : (0 : ℚ) ≤
        ((relevantWords.filter (fun w =>
            containsSub (pyLower q) w && containsSub (pyLower res.result) w)).length : ℚ) *
          (1/20) := by positivity
    exact le_min (add_nonneg (add_nonneg hb hl) hc) (by norm_num)
  · rw [heq]
    exact min_le_right _ _

/-! ## C8: source attribution — dictionary lemmas -/

theorem upsertMax_map_fst (m : List (String × ℚ)) (k : String) (v : ℚ) :
    (upsertMax m k v).map Prod.fst =
      if k ∈ m.map Prod.fst then m.map Prod.fst else m.map Prod.fst ++ [k] := by
  induction m with
  | nil => simp [upsertMax]
  | cons q rest ih =>
    by_cases hk : q.1 = k
    · simp [upsertMax, hk]
    · simp only [upsertMax, if_neg hk, List.map_cons, ih, List.mem_cons]
      by_cases hmem : k ∈ rest.map Prod.fst
      · simp [hmem]
      · simp [hmem, Ne.symm hk]

theorem mem_upsertMax_key (m : List (String × ℚ)) (k : String) (v : ℚ) (p : String × ℚ)
    (h : p ∈ upsertMax m k v) : p ∈ m ∨ p.1 = k := by
  induction m with
  | nil =>
    simp [upsertMax] at h
    right
    rw [h]
  | cons q rest ih =>
    by_cases hk : q.1 = k
    · simp only [upsertMax, if_pos hk, List.mem_cons] at h
      rcases h with h | h
      · right
        rw [h]
        exact hk
      · exact Or.inl (List.mem_cons_of_mem q h)
    · simp only [upsertMax, if_neg hk, List.mem_cons] at h
      rcases h with h | h
      · exact Or.inl (h ▸ List.mem_cons_self q rest)
      · rcases ih h with h' | h'
        · exact Or.inl (List.mem_cons_of_mem q h')
        · exact Or.inr h'

theorem upsertMax_values (P : ℚ → Prop) (m : List (String × ℚ)) (k : String) (v : ℚ)
    (hmax : ∀ a b, P a → P b → P (max a b))
    (hm : ∀ p ∈ m, P p.2) (hv : P v) : ∀ p ∈ upsertMax m k v, P p.2 := by
  induction m with
  | nil =>
    intro p hp
    simp [upsertMax] at hp
    rw [hp]
    exact hv
  | cons q rest ih =>
    intro p hp
    by_cases hk : q.1 = k
    · simp only [upsertMax, if_pos hk, List.mem_cons] at hp
      rcases hp with hp | hp
      · rw [hp]
        exact hmax _ _ (hm q (List.mem_cons_self q rest)) hv
      · exact hm p (List.mem_cons_of_mem q hp)
    · simp only [upsertMax, if_neg hk, List.mem_cons] at hp
      rcases hp with hp | hp
      · rw [hp]
        exact hm q (List.mem_cons_self q rest)
      · exact ih (fun r hr => hm r (List.mem_cons_of_mem q hr)) p hp

theorem relOf_not_mem (m : List (String × ℚ)) (k : String)
    (h : k ∉ m.map Prod.fst) : relOf m k = 0 := by
  unfold relOf
  have : m.find? (fun p => p.1 == k) = none := by
    apply find?_none_of_not_pred
    intro p hp
    have : p.1 ≠ k := fun hc => h (hc ▸ List.mem_map_of_mem Prod.fst hp)
    simp [this]
  rw [this]
  rfl

theorem relOf_upsertMax_self (m : List (String × ℚ)) (k : String) (v : ℚ) :
    relOf (upsertMax m k v) k =
      if k ∈ m.map Prod.fst then max (relOf m k) v else v := by
  induction m with
  | nil => simp [upsertMax, relOf, List.find?]
  | cons q rest ih =>
    by_cases hk : q.1 = k
    · simp only [upsertMax, if_pos hk, relOf, List.find?, hk]
      simp [hk]
    · have hbeq : (q.1 == k) = false := by simp [hk]
      simp only [upsertMax, if_neg hk, relOf, List.find?, hbeq]
      simp only [relOf] at ih
      rw [ih]
      simp only [List.map_cons, List.mem_cons]
      by_cases hmem : k ∈ rest.map Prod.fst
      · simp [hmem]
      · simp [hmem, Ne.symm hk]

theorem relOf_upsertMax_other (m : List (String × ℚ)) (k k' : String) (v : ℚ)
    (hne : k' ≠ k) : relOf (upsertMax m k v) k' = relOf m k' := by
  induction m with
  | nil =>
    simp only [upsertMax, relOf, List.find?]
    have : (k == k') = false := by simp [Ne.symm hne]
    simp [this]
  | cons q rest ih =>
    by_cases hk : q.1 = k
    · have hbeq : (q.1 == k') = false := by simp [hk, Ne.symm hne]
      simp only [upsertMax, if_pos hk, relOf, List.find?, hbeq]
    · simp only [upsertMax, if_neg hk, relOf, List.find?]
      cases hbeq : (q.1 == k')
      · simp only [relOf] at ih
        exact ih
      · rfl

/-! ## C8: source attribution — fold lemmas -/

theorem foldl_sourceStep_nodup (ql : String) (docs : List Chunk) :
    ∀ m : List (String × ℚ), (m.map Prod.fst).Nodup →
      ((docs.foldl (sourceStep ql) m).map Prod.fst).Nodup := by
  induction docs with
  | nil => intro m hm; exact hm
  | cons doc rest ih =>
    intro m hm
    rw [List.foldl_cons]
    apply ih
    unfold sourceStep
    split_ifs with hrel
    · rw [upsertMax_map_fst]
      split_ifs with hmem
      · exact hm
      · rw [List.nodup_append]
        refine ⟨hm, List.nodup_singleton _, ?_⟩
        intro a ha hb
        rw [List.mem_singleton] at hb
        exact hmem (hb ▸ ha)
    · exact hm

theorem foldl_sourceStep_values (ql : String) (docs : List Chunk) :
    ∀ m, (∀ p ∈ m, 3/10 < p.2) →
      ∀ p ∈ docs.foldl (sourceStep ql) m, 3/10 < p.2 := by
  induction docs with
  | nil => intro m hm; exact hm
  | cons doc rest ih =>
    intro m hm
    rw [List.foldl_cons]
    apply ih
    unfold sourceStep
    split_ifs with hrel
    · exact upsertMax_values _ _ _ _
        (fun a b ha _ => lt_max_iff.mpr (Or.inl ha)) hm hrel
    · exact hm

theorem foldl_sourceStep_mem (ql : String) (docs : List Chunk) :
    ∀ m p, p ∈ docs.foldl (sourceStep ql) m →
      p ∈ m ∨ ∃ d ∈ docs, d.source = p.1 ∧ 3/10 < chunk_relevance ql d := by
  induction docs with
  | nil => intro m p hp; exact Or.inl hp
  | cons doc rest ih =>
    intro m p hp
    rw [List.foldl_cons] at hp
    rcases ih _ p hp with h | ⟨d, hd, hds, hdrel⟩
    · unfold sourceStep at h
      split_ifs at h with hrel
      · rcases mem_upsertMax_key _ _ _ _ h with h' | h'
        · exact Or.inl h'
        · exact Or.inr ⟨doc, List.mem_cons_self _ _, h'.symm, hrel⟩
      · exact Or.inl h
    · exact Or.inr ⟨d, List.mem_cons_of_mem _ hd, hds, hdrel⟩

theorem relOf_foldl_sourceStep (ql sName : String) (docs : List Chunk) :
    ∀ m, relOf (docs.foldl (sourceStep ql) m) sName =
      docs.foldl
        (fun acc d =>
          if d.source = sName ∧ 3/10 < chunk_relevance ql d then
            max acc (chunk_relevance ql d)
          else acc) (relOf m sName) := by
  induction docs with
  | nil => intro m; rfl
  | cons doc rest ih =>
    intro m
    rw [List.foldl_cons, List.foldl_cons, ih]
    congr 1
    unfold sourceStep
    by_cases hrel : 3/10 < chunk_relevance ql doc
    · rw [if_pos hrel]
      by_cases hs : doc.source = sName
      · subst hs
        rw [relOf_upsertMax_self,
          if_pos (⟨rfl, hrel⟩ : doc.source = doc.source ∧ 3/10 < chunk_relevance ql doc)]
        split_ifs with hmem
        · rfl
        · rw [relOf_not_mem _ _ hmem]
          exact (max_eq_right (le_of_lt (lt_trans (by norm_num) hrel))).symm
      · rw [relOf_upsertMax_other _ _ _ _ (Ne.symm hs), if_neg (fun hc => hs hc.1)]
    · rw [if_neg hrel, if_neg (fun hc => hrel hc.2)]

theorem relOf_of_mem : ∀ (m : List (String × ℚ)), (m.map Prod.fst).Nodup →
    ∀ p ∈ m, relOf m p.1 = p.2 := by
  intro m
  induction m with
  | nil => intro _ p hp; cases hp
  | cons q rest ih =>
    intro hnd p hp
    rcases List.mem_cons.mp hp with h | h
    · subst h
      simp [relOf, List.find?]
    · have hnd2 : (q.1 :: rest.map Prod.fst).Nodup := by
        rw [List.map_cons] at hnd
        exact hnd
      have hnd' := List.nodup_cons.mp hnd2
      have hq : (q.1 == p.1) = false := by
        have : q.1 ≠ p.1 := fun hc => hnd'.1 (hc ▸ List.mem_map_of_mem Prod.fst h)
        simp [this]
      simp only [relOf, List.find?, hq]
      exact ih hnd'.2 p h

/-- C8: the attributed sources list holds at most two names, has no
duplicates, lists only document names some retrieved chunk (scoring strictly
above 0.3) came from, is ranked by descending recorded relevance; the
recorded relevance of each name is the maximum of its surviving chunks'
relevances; and every chunk relevance is 1, 1/2, 3/10, 0, or the
word-overlap ratio `min(overlap/question_words, 1)`. -/
theorem source_attribution_properties (question : String) (docs : List Chunk) :
    (attribute_sources question docs).length ≤ 2 ∧
    (attribute_sources question docs).Nodup ∧
    (∀ s ∈ attribute_sources question docs,
       ∃ d ∈ docs, d.source = s ∧ 3/10 < chunk_relevance (pyLower question) d) ∧
    (attribute_sources question docs).Pairwise
      (fun a b => relOf (build_source_relevance (pyLower question) docs) b ≤
                  relOf (build_source_relevance (pyLower question) docs) a) ∧
    (∀ sName, relOf (build_source_relevance (pyLower question) docs) sName =
       maxRelevanceFor (pyLower question) docs sName) ∧
    (∀ d : Chunk, chunk_relevance (pyLower question) d = 1 ∨
       chunk_relevance (pyLower question) d = 1/2 ∨
       chunk_relevance (pyLower question) d = 3/10 ∨
       chunk_relevance (pyLower question) d = 0 ∨
       (0 < overlapCount (pyLower question) d ∧
        chunk_relevance (pyLower question) d =
          min ((overlapCount (pyLower question) d : ℚ) /
               (questionWordCount (pyLower question) : ℚ)) 1)) := by
  have hnd : ((build_source_relevance (pyLower question) docs).map Prod.fst).Nodup :=
    foldl_sourceStep_nodup _ docs [] (by simp)
  have hperm : List.Perm
      (List.insertionSort relGE (build_source_relevance (pyLower question) docs))
      (build_source_relevance (pyLower question) docs) :=
    List.perm_insertionSort _ _
  have hpermmap := hperm.map Prod.fst
  have hndmap :
      ((List.insertionSort relGE (build_source_relevance (pyLower question) docs)).map
        Prod.fst).Nodup :=
    hpermmap.nodup_iff.mpr hnd
  refine ⟨?_, ?_, ?_, ?_, ?_, ?_⟩
  · unfold attribute_sources select_sources
    simp [List.length_take]
  · unfold attribute_sources select_sources
    exact List.Nodup.sublist (List.take_sublist _ _) hndmap
  · intro s hs
    unfold attribute_sources select_sources at hs
    have hs2 : s ∈ (List.insertionSort relGE
        (build_source_relevance (pyLower question) docs)).map Prod.fst :=
      List.take_subset _ _ hs
    obtain ⟨p, hp, hps⟩ := List.mem_map.mp hs2
    have hpm : p ∈ build_source_relevance (pyLower question) docs := hperm.mem_iff.mp hp
    rcases foldl_sourceStep_mem _ docs [] p hpm with h | ⟨d, hd, hds, hdrel⟩
    · cases h
    · exact ⟨d, hd, hds.trans hps, hdrel⟩
  · unfold attribute_sources select_sources
    apply List.Pairwise.sublist (List.take_sublist _ _)
    rw [List.pairwise_map]
    have hsorted : List.Sorted relGE
        (List.insertionSort relGE (build_source_relevance (pyLower question) docs)) :=
      List.sorted_insertionSort relGE _
    refine List.Pairwise.imp_of_mem ?_ hsorted
    intro a b ha hb hab
    have ha' := hperm.mem_iff.mp ha
    have hb' := hperm.mem_iff.mp hb
    rw [relOf_of_mem _ hnd a ha', relOf_of_mem _ hnd b hb']
    exact hab
  · intro sName
    unfold build_source_relevance maxRelevanceFor
    rw [relOf_foldl_sourceStep]
    have h0 : relOf [] sName = (0 : ℚ) := rfl
    rw [h0]
  · intro d
    simp only [chunk_relevance]
    split_ifs <;>
      first
        | exact Or.inl rfl
        | exact Or.inr (Or.inl rfl)
        | exact Or.inr (Or.inr (Or.inl rfl))
        | exact Or.inr (Or.inr (Or.inr (Or.inl rfl)))
        | exact Or.inr (Or.inr (Or.inr (Or.inr ⟨by assumption, rfl⟩)))

end Chatbot
